import Mathlib

/-
Verification of the navigation controller of the mino-design-influences
presentation (src/app/page.tsx).

The only stateful logic in the repository is the slide-navigation state
machine inside DesignInfluencesPresentation: a current slide index, a travel
direction, and three bounds-checked transitions (goToSlide, nextSlide,
prevSlide) driven by keyboard and pointer input.  This file embeds that
state machine, the SLIDES registry, the rendered indicators (progress bar,
slide counter, disabled prev/next buttons) and the SlideContent payload
lookup, and proves the specified properties about them.
-/

namespace MinoDesign

/-- The slide registry, the ordered list of slide identifiers, copied from
the SLIDES constant of src/app/page.tsx. -/
def SLIDES : List String :=
  [ "title"
  , "two-solutions"
  , "influence-map"
  , "os-solution"
  , "macos-intro"
  , "mingei-intro"
  , "boids-intro"
  , "dithering-intro"
  , "os2-solution"
  , "ps4-intro"
  , "ps4-principles"
  , "tanaka-intro"
  , "tanaka-principles"
  , "common-thread"
  , "ma-concept"
  , "comparison"
  , "conclusion"
  , "mockups" ]

/-- The navigation state of DesignInfluencesPresentation: the two useState
cells currentSlide and direction.  Indices are modelled as unbounded
integers, since goToSlide accepts an arbitrary integer argument. -/
structure NavState where
  currentSlide : Int
  direction : Int
deriving DecidableEq, Repr

/-- The initial state: useState(0) for both cells. -/
def initState : NavState := { currentSlide := 0, direction := 0 }

/-- goToSlide of src/app/page.tsx: if the index is inside the registry
bounds, set direction by comparing the target with the current slide and
move to the target; otherwise do nothing. -/
def goToSlide (s : NavState) (index : Int) : NavState :=
  if index ≥ 0 ∧ index < (SLIDES.length : Int) then
    { currentSlide := index
    , direction := if index > s.currentSlide then 1 else -1 }
  else s

/-- nextSlide of src/app/page.tsx: when not at the last slide, set
direction to 1 and increment the current slide. -/
def nextSlide (s : NavState) : NavState :=
  if s.currentSlide < (SLIDES.length : Int) - 1 then
    { currentSlide := s.currentSlide + 1, direction := 1 }
  else s

/-- prevSlide of src/app/page.tsx: when not at the first slide, set
direction to -1 and decrement the current slide. -/
def prevSlide (s : NavState) : NavState :=
  if s.currentSlide > 0 then
    { currentSlide := s.currentSlide - 1, direction := -1 }
  else s

/-- One user input to the controller: a right-arrow or space press or a
next-button click (advance), a left-arrow press or prev-button click
(retreat), or a click on a navigation dot or other jump (goTo). -/
inductive NavEvent where
  | advance : NavEvent
  | retreat : NavEvent
  | goTo : Int → NavEvent
deriving DecidableEq, Repr

/-- Dispatch one event to the matching handler. -/
def navStep (s : NavState) : NavEvent → NavState
  | NavEvent.advance => nextSlide s
  | NavEvent.retreat => prevSlide s
  | NavEvent.goTo x => goToSlide s x

/-- Run a finite sequence of events from the initial state. -/
def navRun (events : List NavEvent) : NavState :=
  events.foldl navStep initState

/-- The prev button is disabled exactly when currentSlide === 0
(src/app/page.tsx, the prev-button disabled attribute). -/
def prevDisabled (s : NavState) : Bool :=
  s.currentSlide == 0

/-- The next button is disabled exactly when
currentSlide === SLIDES.length - 1 (src/app/page.tsx, the next-button
disabled attribute). -/
def nextDisabled (s : NavState) : Bool :=
  s.currentSlide == (SLIDES.length : Int) - 1

/-- The slide-counter readout rendered at the bottom right:
currentSlide + 1, a separator, and SLIDES.length. -/
def slideCounter (s : NavState) : String :=
  toString (s.currentSlide + 1) ++ " / " ++ toString SLIDES.length

/-- The progress-bar fill ratio: the animated width is
(currentSlide + 1) / SLIDES.length of the full bar. -/
def progressFraction (s : NavState) : ℚ :=
  ((s.currentSlide : ℚ) + 1) / (SLIDES.length : ℚ)

/-- SlideContent of src/app/page.tsx: the switch over the slide identifier
returning the per-slide payload component, with a default branch returning
null, modelled as none. -/
def SlideContent (slideId : String) : Option String :=
  match slideId with
  | "title" => some "SlideTitle"
  | "two-solutions" => some "SlideTwoSolutions"
  | "influence-map" => some "SlideInfluenceMap"
  | "os-solution" => some "SlideOSSolution"
  | "os2-solution" => some "SlideOS2Solution"
  | "tanaka-intro" => some "SlideTanakaIntro"
  | "tanaka-principles" => some "SlideTanakaPrinciples"
  | "ps4-intro" => some "SlidePS4Intro"
  | "ps4-principles" => some "SlidePS4Principles"
  | "mingei-intro" => some "SlideMingeiIntro"
  | "boids-intro" => some "SlideBoidsIntro"
  | "dithering-intro" => some "SlideDitheringIntro"
  | "macos-intro" => some "SlideMacOSIntro"
  | "common-thread" => some "SlideCommonThread"
  | "ma-concept" => some "SlideMaConcept"
  | "comparison" => some "SlideComparison"
  | "conclusion" => some "SlideConclusion"
  | "mockups" => some "SlideMockups"
  | _ => none

/-- The bounds invariant on a navigation state. -/
def InBounds (s : NavState) : Prop :=
  0 ≤ s.currentSlide ∧ s.currentSlide < (SLIDES.length : Int)

/-- nextSlide preserves the bounds invariant. -/
lemma nextSlide_inBounds (s : NavState) (h : InBounds s) :
    InBounds (nextSlide s) := by
  obtain ⟨h0, h1⟩ := h
  unfold nextSlide
  split
  · next hc =>
    refine ⟨?_, ?_⟩
    · show 0 ≤ s.currentSlide + 1
      omega
    · show s.currentSlide + 1 < (SLIDES.length : Int)
      omega
  · exact ⟨h0, h1⟩

/-- prevSlide preserves the bounds invariant. -/
lemma prevSlide_inBounds (s : NavState) (h : InBounds s) :
    InBounds (prevSlide s) := by
  obtain ⟨h0, h1⟩ := h
  unfold prevSlide
  split
  · next hc =>
    refine ⟨?_, ?_⟩
    · show 0 ≤ s.currentSlide - 1
      omega
    · show s.currentSlide - 1 < (SLIDES.length : Int)
      omega
  · exact ⟨h0, h1⟩

/-- goToSlide preserves the bounds invariant for any integer argument. -/
lemma goToSlide_inBounds (s : NavState) (x : Int) (h : InBounds s) :
    InBounds (goToSlide s x) := by
  obtain ⟨h0, h1⟩ := h
  unfold goToSlide
  split
  · next hg =>
    refine ⟨?_, ?_⟩
    · show 0 ≤ x
      omega
    · show x < (SLIDES.length : Int)
      exact hg.2
  · exact ⟨h0, h1⟩

/-- Each of the three handlers preserves the bounds invariant. -/
lemma navStep_preserves_inBounds (s : NavState) (e : NavEvent)
    (h : InBounds s) : InBounds (navStep s e) := by
  cases e with
  | advance => exact nextSlide_inBounds s h
  | retreat => exact prevSlide_inBounds s h
  | goTo x => exact goToSlide_inBounds s x h

/-- Folding any event list from a state inside bounds stays inside
bounds. -/
lemma foldl_navStep_inBounds (events : List NavEvent) :
    ∀ s : NavState, InBounds s → InBounds (events.foldl navStep s) := by
  induction events with
  | nil => intro s h; exact h
  | cons e rest ih =>
    intro s h
    exact ih (navStep s e) (navStep_preserves_inBounds s e h)

/-- C1: for every finite sequence of advance, retreat and goTo calls
starting from the initial state, the controller position satisfies
0 ≤ position < N, where N is the registry length. -/
theorem position_bounds_invariant (events : List NavEvent) :
    0 ≤ (navRun events).currentSlide ∧
      (navRun events).currentSlide < (SLIDES.length : Int) :=
  foldl_navStep_inBounds events initState ⟨by decide, by decide⟩

/-- C3: retreat at position 0 and advance at position N - 1 leave the
position unchanged. -/
theorem boundary_noop (s : NavState) :
    (s.currentSlide = 0 → (prevSlide s).currentSlide = s.currentSlide) ∧
    (s.currentSlide = (SLIDES.length : Int) - 1 →
      (nextSlide s).currentSlide = s.currentSlide) := by
  constructor
  · intro h
    unfold prevSlide
    rw [if_neg (by omega)]
  · intro h
    unfold nextSlide
    rw [if_neg (by omega)]

/-- Witness for C3 at position 0 and position 17. -/
theorem boundary_noop_witness :
    (prevSlide { currentSlide := 0, direction := 0 }).currentSlide = 0 ∧
    (nextSlide { currentSlide := 17, direction := 0 }).currentSlide = 17 :=
  ⟨(boundary_noop { currentSlide := 0, direction := 0 }).1 rfl,
   (boundary_noop { currentSlide := 17, direction := 0 }).2 (by decide)⟩

/-- C4: goToSlide with argument -1 or with argument N is a complete no-op:
both position and direction keep their pre-call values. -/
theorem out_of_range_noop (s : NavState) :
    goToSlide s (-1) = s ∧ goToSlide s (SLIDES.length : Int) = s := by
  constructor
  · unfold goToSlide
    rw [if_neg (by decide)]
  · unfold goToSlide
    rw [if_neg (by decide)]

/-- C5: after an in-range goToSlide, the direction is 1 when the target is
above the pre-call position and -1 when it is below. -/
theorem direction_correctness (s : NavState) (target : Int)
    (h0 : 0 ≤ target) (h1 : target < (SLIDES.length : Int)) :
    (target > s.currentSlide → (goToSlide s target).direction = 1) ∧
    (target < s.currentSlide → (goToSlide s target).direction = -1) := by
  constructor
  · intro hgt
    unfold goToSlide
    rw [if_pos ⟨h0, h1⟩, if_pos hgt]
  · intro hlt
    unfold goToSlide
    rw [if_pos ⟨h0, h1⟩, if_neg (by omega)]

/-- Witness for C5: jumping 2 to 5 gives direction 1, jumping 5 to 2 gives
direction -1. -/
theorem direction_correctness_witness :
    (goToSlide { currentSlide := 2, direction := 0 } 5).direction = 1 ∧
    (goToSlide { currentSlide := 5, direction := 0 } 2).direction = -1 :=
  ⟨(direction_correctness { currentSlide := 2, direction := 0 } 5
      (by decide) (by decide)).1 (by decide),
   (direction_correctness { currentSlide := 5, direction := 0 } 2
      (by decide) (by decide)).2 (by decide)⟩

/-- C6: on every state satisfying the bounds invariant of the data model,
nextSlide coincides with goToSlide at position + 1 and prevSlide coincides
with goToSlide at position - 1, as complete states. -/
theorem handlers_refine_goToSlide (s : NavState)
    (h0 : 0 ≤ s.currentSlide) (h1 : s.currentSlide < (SLIDES.length : Int)) :
    nextSlide s = goToSlide s (s.currentSlide + 1) ∧
    prevSlide s = goToSlide s (s.currentSlide - 1) := by
  constructor
  · unfold nextSlide goToSlide
    by_cases hc : s.currentSlide < (SLIDES.length : Int) - 1
    · rw [if_pos hc, if_pos (by omega), if_pos (by omega)]
    · rw [if_neg hc, if_neg (by omega)]
  · unfold prevSlide goToSlide
    by_cases hc : s.currentSlide > 0
    · rw [if_pos hc, if_pos (by omega), if_neg (by omega)]
    · rw [if_neg hc, if_neg (by omega)]

/-- Witness for C6 at position 5. -/
theorem handlers_refine_goToSlide_witness :
    nextSlide { currentSlide := 5, direction := 0 } =
      goToSlide { currentSlide := 5, direction := 0 } 6 ∧
    prevSlide { currentSlide := 5, direction := 0 } =
      goToSlide { currentSlide := 5, direction := 0 } 4 :=
  handlers_refine_goToSlide { currentSlide := 5, direction := 0 }
    (by decide) (by decide)

/-- C7: in every state the controller reaches, the slide counter reads
the position plus one, a separator, and the registry length, and the
progress-bar fill ratio is (position + 1) / N. -/
theorem indicator_consistency (p : Int) (events : List NavEvent)
    (h : (navRun events).currentSlide = p) :
    slideCounter (navRun events) =
      toString (p + 1) ++ " / " ++ toString SLIDES.length ∧
    progressFraction (navRun events) =
      ((p : ℚ) + 1) / (SLIDES.length : ℚ) := by
  constructor
  · unfold slideCounter
    rw [h]
  · unfold progressFraction
    rw [h]

/-- Witness for C7 in the initial state. -/
theorem indicator_consistency_witness :
    slideCounter (navRun []) =
      toString ((0 : Int) + 1) ++ " / " ++ toString SLIDES.length ∧
    progressFraction (navRun []) =
      (((0 : Int) : ℚ) + 1) / (SLIDES.length : ℚ) :=
  indicator_consistency 0 [] rfl

/-- C8: an in-range goToSlide targeting the current position keeps the
position and sets the direction to -1, whatever it was before. -/
theorem same_target_direction (s : NavState)
    (h0 : 0 ≤ s.currentSlide) (h1 : s.currentSlide < (SLIDES.length : Int)) :
    (goToSlide s s.currentSlide).currentSlide = s.currentSlide ∧
    (goToSlide s s.currentSlide).direction = -1 := by
  unfold goToSlide
  rw [if_pos ⟨h0, h1⟩, if_neg (by omega)]
  exact ⟨rfl, rfl⟩

/-- Witness for C8 at position 4 with prior direction 1. -/
theorem same_target_direction_witness :
    (goToSlide { currentSlide := 4, direction := 1 } 4).currentSlide = 4 ∧
    (goToSlide { currentSlide := 4, direction := 1 } 4).direction = -1 :=
  same_target_direction { currentSlide := 4, direction := 1 }
    (by decide) (by decide)

/-- C9: every identifier of the SLIDES registry resolves to a payload in
SlideContent; the default branch returning none is unreachable on registry
inputs. -/
theorem slideContent_total_on_registry :
    ∀ slideId ∈ SLIDES, (SlideContent slideId).isSome = true := by
  decide

/-- Witness for C9 at the first registry identifier. -/
theorem slideContent_total_on_registry_witness :
    (SlideContent "title").isSome = true :=
  slideContent_total_on_registry "title" (by decide)

/-- C10: below the last slide, advance then retreat restores the position
and leaves direction -1; above the first slide, retreat then advance
restores the position. -/
theorem advance_retreat_roundtrip (s : NavState) (h0 : 0 ≤ s.currentSlide) :
    (s.currentSlide < (SLIDES.length : Int) - 1 →
      (prevSlide (nextSlide s)).currentSlide = s.currentSlide ∧
      (prevSlide (nextSlide s)).direction = -1) ∧
    (0 < s.currentSlide → s.currentSlide ≤ (SLIDES.length : Int) - 1 →
      (nextSlide (prevSlide s)).currentSlide = s.currentSlide) := by
  constructor
  · intro hc
    unfold nextSlide prevSlide
    rw [if_pos hc]
    rw [show ({ currentSlide := s.currentSlide + 1, direction := 1 } :
          NavState).currentSlide = s.currentSlide + 1 from rfl]
    rw [if_pos (by omega)]
    refine ⟨?_, rfl⟩
    show s.currentSlide + 1 - 1 = s.currentSlide
    omega
  · intro hp hn
    unfold prevSlide nextSlide
    rw [if_pos hp]
    rw [show ({ currentSlide := s.currentSlide - 1, direction := -1 } :
          NavState).currentSlide = s.currentSlide - 1 from rfl]
    rw [if_pos (by omega)]
    show s.currentSlide - 1 + 1 = s.currentSlide
    omega

/-- Witness for C10 at positions 3 and 7. -/
theorem advance_retreat_roundtrip_witness :
    ((prevSlide (nextSlide { currentSlide := 3, direction := 0 })).currentSlide
        = 3 ∧
      (prevSlide (nextSlide { currentSlide := 3, direction := 0 })).direction
        = -1) ∧
    (nextSlide (prevSlide { currentSlide := 7, direction := 0 })).currentSlide
        = 7 :=
  ⟨(advance_retreat_roundtrip { currentSlide := 3, direction := 0 }
      (by decide)).1 (by decide),
   (advance_retreat_roundtrip { currentSlide := 7, direction := 0 }
      (by decide)).2 (by decide) (by decide)⟩

/-- The event sequence of the end-to-end scenario up to the repeated
advance presses. -/
def advancePresses (k : Nat) : List NavEvent :=
  List.replicate k NavEvent.advance

/-- The full end-to-end event sequence: k advance presses, a click on dot
3, then three retreat presses. -/
def scenarioEvents (k : Nat) : List NavEvent :=
  advancePresses k ++ [NavEvent.goTo 3] ++ List.replicate 3 NavEvent.retreat

/-- C2 counterexample: the scenario as stated for N = 17 fails on the
code, whose registry has 18 entries: after 16 advance presses the position
is 16 but the next button is not disabled, and a 17th press moves to 17. -/
theorem scenario_n17_false :
    ¬ (SLIDES.length = 17 ∧
       (navRun (advancePresses 16)).currentSlide = 16 ∧
       nextDisabled (navRun (advancePresses 16)) = true ∧
       (navRun (advancePresses 17)).currentSlide = 16 ∧
       (navRun (advancePresses 17 ++ [NavEvent.goTo 3])).currentSlide = 3 ∧
       (navRun (advancePresses 17 ++ [NavEvent.goTo 3])).direction = -1 ∧
       (navRun (scenarioEvents 17)).currentSlide = 0 ∧
       prevDisabled (navRun (scenarioEvents 17)) = true) := by
  decide

/-- C2 amended: the end-to-end scenario with N = 18.  From the initial
state, 17 advance presses reach position 17 with the next button disabled,
an 18th press is a no-op, clicking dot 3 reaches position 3 with direction
-1, and three retreat presses reach position 0 with the prev button
disabled. -/
theorem scenario_end_to_end :
    SLIDES.length = 18 ∧
    (navRun (advancePresses 17)).currentSlide = 17 ∧
    nextDisabled (navRun (advancePresses 17)) = true ∧
    (navRun (advancePresses 18)).currentSlide = 17 ∧
    (navRun (advancePresses 18 ++ [NavEvent.goTo 3])).currentSlide = 3 ∧
    (navRun (advancePresses 18 ++ [NavEvent.goTo 3])).direction = -1 ∧
    (navRun (scenarioEvents 18)).currentSlide = 0 ∧
    prevDisabled (navRun (scenarioEvents 18)) = true := by
  decide

end MinoDesign
